import Mathlib

/-!
Shallow Lean embedding of the SmartProp backend's control core
(`src/cloud/sprop_calculations.py` and `src/cloud/mqtt_listener.py`).

Modelling conventions:
* Python floats carrying temperatures and humidities are modelled as `ℚ`;
  every threshold in the source is exactly representable and only order
  comparisons are performed on these values.
* Instants (timezone-aware datetimes) are modelled as `Int` seconds since
  an arbitrary epoch; the GMT+8 conversions in the source are identity
  maps on instants and so disappear in the model.
* Python strings are modelled as Lean `String`; `str.upper` is modelled by
  its ASCII case mapping, which is all the status vocabulary exercises.
* The human-readable `message` fields of the recommendation dictionaries
  are elided: no control decision in the source depends on them.
-/

namespace SProp

/-- Result dictionary of `check_temperature_control` / `check_humidity_control`
(`sprop_calculations.py`): an optional fan action, an optional lid action and a
status string.  `none` models Python `None` ("maintain current state"). -/
structure ControlRec where
  fan_action : Option String
  lid_action : Option String
  status : String
deriving DecidableEq

/-- `check_temperature_control` (`sprop_calculations.py` lines 9-71).
The source's default arguments `optimal_min=18.0`, `optimal_max=24.0` are
passed explicitly by the callers modelled here. -/
def check_temperature_control (temp optimal_min optimal_max : ℚ) : ControlRec :=
  if temp > 30 then
    ⟨some "ON", some "OPEN", "critical_high"⟩
  else if temp < 10 then
    ⟨some "OFF", some "CLOSED", "critical_low"⟩
  else if temp > optimal_max then
    ⟨some "ON", some "OPEN", "too_high"⟩
  else if temp < optimal_min then
    ⟨some "OFF", some "CLOSED", "too_low"⟩
  else
    ⟨none, none, "optimal"⟩

/-- `check_humidity_control` (`sprop_calculations.py` lines 74-118).
Note the optimal branch returns `lid_action = "CLOSED"` (not `None`). -/
def check_humidity_control (humidity optimal_min optimal_max : ℚ) : ControlRec :=
  if humidity > optimal_max then
    ⟨some "ON", some "OPEN", "too_high"⟩
  else if humidity < optimal_min then
    ⟨some "OFF", some "CLOSED", "too_low"⟩
  else
    ⟨none, some "CLOSED", "optimal"⟩

/-- Result dictionary of `get_combined_control_recommendation`
(message fields elided). -/
structure CombinedRec where
  fan_action : Option String
  lid_action : Option String
  temp_status : String
  humidity_status : String
deriving DecidableEq

/-- `get_combined_control_recommendation` (`sprop_calculations.py` lines
121-197).  The two `check` helpers are called with their default thresholds;
the cascade is: critical temperature, then humidity `> 70`, then temperature
preference over humidity, with the both-optimal edge case filling in
`lid = CLOSED` / `fan = OFF`. -/
def get_combined_control_recommendation (temp humidity : ℚ) : CombinedRec :=
  let temp_control := check_temperature_control temp 18 24
  let humidity_control := check_humidity_control humidity 40 70
  if temp > 30 ∨ temp < 10 then
    ⟨temp_control.fan_action, temp_control.lid_action,
      temp_control.status, humidity_control.status⟩
  else if humidity > 70 then
    ⟨humidity_control.fan_action, humidity_control.lid_action,
      temp_control.status, humidity_control.status⟩
  else
    let fan0 := match temp_control.fan_action with
      | some a => some a
      | none => humidity_control.fan_action
    let lid0 := match temp_control.lid_action with
      | some a => some a
      | none => humidity_control.lid_action
    let lid1 :=
      if temp_control.status = "optimal" ∧ humidity_control.status = "optimal" ∧ lid0 = none
      then some "CLOSED" else lid0
    let fan1 :=
      if temp_control.status = "optimal" ∧ humidity_control.status = "optimal" ∧ fan0 = none
      then some "OFF" else fan0
    ⟨fan1, lid1, temp_control.status, humidity_control.status⟩

/-- Region characterization of the combined engine's (fan, lid) output,
mirroring the cascade order of the source. -/
lemma combined_actions (temp humidity : ℚ) :
    ((get_combined_control_recommendation temp humidity).fan_action,
     (get_combined_control_recommendation temp humidity).lid_action) =
    if temp > 30 then (some "ON", some "OPEN")
    else if temp < 10 then (some "OFF", some "CLOSED")
    else if humidity > 70 then (some "ON", some "OPEN")
    else if temp > 24 then (some "ON", some "OPEN")
    else (some "OFF", some "CLOSED") := by
  by_cases h30 : temp > 30
  · simp [get_combined_control_recommendation, check_temperature_control, h30]
  · by_cases h10 : temp < 10
    · simp [get_combined_control_recommendation, check_temperature_control, h30, h10]
    · by_cases h70 : humidity > 70
      · simp [get_combined_control_recommendation, check_humidity_control, h30, h10, h70]
      · by_cases h24 : temp > 24
        · simp [get_combined_control_recommendation, check_temperature_control,
            check_humidity_control, h30, h10, h70, h24]
        · by_cases h18 : temp < 18
          · simp [get_combined_control_recommendation, check_temperature_control,
              check_humidity_control, h30, h10, h70, h24, h18]
          · by_cases h40 : humidity < 40
            · simp [get_combined_control_recommendation, check_temperature_control,
                check_humidity_control, h30, h10, h70, h24, h18, h40]
            · simp [get_combined_control_recommendation, check_temperature_control,
                check_humidity_control, h30, h10, h70, h24, h18, h40]

/-- C4: for every humidity, temperature above 30 forces fan ON / lid OPEN and
temperature below 10 forces fan OFF / lid CLOSED in the combined decision. -/
theorem temp_critical_overrides_humidity (temp humidity : ℚ) :
    (temp > 30 →
      (get_combined_control_recommendation temp humidity).fan_action = some "ON" ∧
      (get_combined_control_recommendation temp humidity).lid_action = some "OPEN") ∧
    (temp < 10 →
      (get_combined_control_recommendation temp humidity).fan_action = some "OFF" ∧
      (get_combined_control_recommendation temp humidity).lid_action = some "CLOSED") := by
  have h := combined_actions temp humidity
  constructor
  · intro h30
    rw [if_pos h30] at h
    exact ⟨congrArg Prod.fst h, congrArg Prod.snd h⟩
  · intro h10
    rw [if_neg (by linarith), if_pos h10] at h
    exact ⟨congrArg Prod.fst h, congrArg Prod.snd h⟩

/-- Witness for C4 at temperature 31 (hot) and 5 (cold), humidity 55. -/
theorem temp_critical_overrides_humidity_witness :
    (get_combined_control_recommendation 31 55).fan_action = some "ON" ∧
    (get_combined_control_recommendation 5 55).lid_action = some "CLOSED" :=
  ⟨((temp_critical_overrides_humidity 31 55).1 (by norm_num)).1,
   ((temp_critical_overrides_humidity 5 55).2 (by norm_num)).2⟩

/-- C5: in the non-critical temperature band 10 ≤ temp ≤ 30, humidity above 70
forces fan ON / lid OPEN in the combined decision. -/
theorem humidity_high_overrides_noncritical_temp (temp humidity : ℚ)
    (hlo : 10 ≤ temp) (hhi : temp ≤ 30) (hhum : humidity > 70) :
    (get_combined_control_recommendation temp humidity).fan_action = some "ON" ∧
    (get_combined_control_recommendation temp humidity).lid_action = some "OPEN" := by
  have h := combined_actions temp humidity
  rw [if_neg (by linarith), if_neg (by linarith), if_pos hhum] at h
  exact ⟨congrArg Prod.fst h, congrArg Prod.snd h⟩

/-- Witness for C5 at temperature 15 (which alone would ask fan OFF / lid
CLOSED) and humidity 80. -/
theorem humidity_high_overrides_noncritical_temp_witness :
    (get_combined_control_recommendation 15 80).fan_action = some "ON" ∧
    (get_combined_control_recommendation 15 80).lid_action = some "OPEN" :=
  humidity_high_overrides_noncritical_temp 15 80 (by norm_num) (by norm_num) (by norm_num)

/-- C7: all rule-engine comparisons are strict, so at each boundary value the
branch guarded by that boundary does not fire: 18 and 24 give temperature
status "optimal" with no actions, 30 gives "too_high" (not "critical_high"),
10 gives "too_low" (not "critical_low"), and 40 and 70 give humidity status
"optimal" with no fan action. -/
theorem boundary_values_do_not_trigger :
    check_temperature_control 18 18 24 = ⟨none, none, "optimal"⟩ ∧
    check_temperature_control 24 18 24 = ⟨none, none, "optimal"⟩ ∧
    (check_temperature_control 30 18 24).status = "too_high" ∧
    (check_temperature_control 10 18 24).status = "too_low" ∧
    (check_humidity_control 40 40 70).status = "optimal" ∧
    (check_humidity_control 40 40 70).fan_action = none ∧
    (check_humidity_control 70 40 70).status = "optimal" ∧
    (check_humidity_control 70 40 70).fan_action = none := by
  refine ⟨?_, ?_, ?_, ?_, ?_, ?_, ?_, ?_⟩ <;>
    norm_num [check_temperature_control, check_humidity_control]

/-- C9: the combined engine always returns a definite fan action in
\x7bON, OFF\x7d and a definite lid action in \x7bOPEN, CLOSED\x7d; `None`
never escapes. -/
theorem combined_decision_always_definite (temp humidity : ℚ) :
    ((get_combined_control_recommendation temp humidity).fan_action = some "ON" ∨
     (get_combined_control_recommendation temp humidity).fan_action = some "OFF") ∧
    ((get_combined_control_recommendation temp humidity).lid_action = some "OPEN" ∨
     (get_combined_control_recommendation temp humidity).lid_action = some "CLOSED") := by
  have h := combined_actions temp humidity
  split_ifs at h <;> rw [Prod.mk.injEq] at h <;>
    exact ⟨by rw [h.1]; simp, by rw [h.2]; simp⟩

/-! ## String helpers used by `mqtt_listener.py`

`upperChar`/`upper` model Python's `str.upper` on the ASCII range (all the
status vocabulary is ASCII); `strip` models `str.strip`. -/

/-- ASCII uppercase of one character (`'a'`..`'z'` map down by 32, everything
else is fixed). -/
def upperChar (c : Char) : Char :=
  if h : 97 ≤ c.toNat ∧ c.toNat ≤ 122 then
    Char.ofNatAux (c.toNat - 32) (by unfold Nat.isValidChar; exact Or.inl (by omega))
  else c

/-- `str.upper`, character by character. -/
def upper (s : String) : String := String.mk (s.data.map upperChar)

/-- `str.strip` (whitespace trimming). -/
def strip (s : String) : String := s.trim

lemma upperChar_toNat (c : Char) (h : 97 ≤ c.toNat ∧ c.toNat ≤ 122) :
    (upperChar c).toNat = c.toNat - 32 := by
  unfold upperChar
  rw [dif_pos h]
  rfl

lemma upperChar_eq_self (c : Char) (h : ¬ (97 ≤ c.toNat ∧ c.toNat ≤ 122)) :
    upperChar c = c := by
  unfold upperChar
  rw [dif_neg h]

lemma upperChar_idem (c : Char) : upperChar (upperChar c) = upperChar c := by
  by_cases h : 97 ≤ c.toNat ∧ c.toNat ≤ 122
  · apply upperChar_eq_self
    rw [upperChar_toNat c h]; omega
  · rw [upperChar_eq_self c h, upperChar_eq_self c h]

lemma upper_idem (s : String) : upper (upper s) = upper s := by
  show String.mk ((s.data.map upperChar).map upperChar) = String.mk (s.data.map upperChar)
  rw [List.map_map]
  have hco : upperChar ∘ upperChar = upperChar := funext upperChar_idem
  rw [hco]

/-! ## The MQTT listener (`mqtt_listener.py`)

`SPropMQTTListener`'s mutable fields become `ListenerState`; the MQTT client
and database become explicit parameters (`connected`, `optimization_enabled`,
`now`) and explicit outputs (the list of commands handed to the transport,
the row inserted into `sensor_data`). -/

/-- The listener's in-memory actuator tracking (`__init__`, lines 49-54):
`last_fan_state`, `last_lid_state`, `last_valve_state`, all `None` at start. -/
structure ListenerState where
  last_fan_state : Option String
  last_lid_state : Option String
  last_valve_state : Option String
deriving DecidableEq

/-- Fresh state at process start: every actuator state is `None` (UNKNOWN). -/
def initState : ListenerState := ⟨none, none, none⟩

/-- One MQTT publish: a topic and the `action` field of its JSON payload. -/
structure Command where
  topic : String
  action : String
deriving DecidableEq

def MQTT_CMD_FAN_TOPIC : String := "sprop/cmd/fan"
def MQTT_CMD_LID_TOPIC : String := "sprop/cmd/lid"
def MQTT_CMD_VALVE_TOPIC : String := "sprop/cmd/valve"

/-- A parsed telemetry message as consumed by `save_sensor_data` and
`check_thresholds_and_control`: required temperature/humidity, the normalized
timestamp, and the optional device-state fields the control code probes. -/
structure SensorData where
  temperature : ℚ
  humidity : ℚ
  timestamp : Int
  fan_state : Option String
  relay : Option String
  fan : Option String
  lid_state : Option String
  lid : Option String
deriving DecidableEq

/-- A telemetry reading carrying only temperature, humidity and timestamp. -/
def mkReading (t h : ℚ) (ts : Int) : SensorData :=
  ⟨t, h, ts, none, none, none, none, none⟩

/-- Python's truthiness-based `a or b` on optional strings: `None` and the
empty string are falsy. -/
def pyOr (a b : Option String) : Option String :=
  match a with
  | none => b
  | some s => if s = "" then b else some s

/-- Python's `x or d` fallback applied to an optional string, as in
`self.last_fan_state or "UNKNOWN"`. -/
def pyGetD (a : Option String) (d : String) : String :=
  match a with
  | none => d
  | some s => if s = "" then d else s

/-- Current fan state as computed in `check_thresholds_and_control` lines
266-272: first truthy of `fan_state`/`relay`/`fan` (stripped and upper-cased),
else the tracker's last state, else `"UNKNOWN"`. -/
def current_fan_state (st : ListenerState) (d : SensorData) : String :=
  match pyOr (pyOr d.fan_state d.relay) d.fan with
  | some s => if s = "" then pyGetD st.last_fan_state "UNKNOWN" else upper (strip s)
  | none => pyGetD st.last_fan_state "UNKNOWN"

/-- Current lid state, lines 274-278: first truthy of `lid_state`/`lid`,
else the tracker's last state, else `"UNKNOWN"`. -/
def current_lid_state (st : ListenerState) (d : SensorData) : String :=
  match pyOr d.lid_state d.lid with
  | some s => if s = "" then pyGetD st.last_lid_state "UNKNOWN" else upper (strip s)
  | none => pyGetD st.last_lid_state "UNKNOWN"

/-- `publish_command` (lines 318-332): with the client disconnected nothing
reaches the transport (only a log line); otherwise the command is handed to
the transport (a broker rejection merely changes what is logged).  In both
cases the caller gets no success/failure signal back. -/
def publish_command (connected : Bool) (topic action : String) : List Command :=
  if connected then [⟨topic, action⟩] else []

/-- `check_thresholds_and_control` (lines 247-316).  Returns the new tracker
state and the commands handed to `publish_command`.  Note the source updates
`last_fan_state`/`last_lid_state` immediately after calling `publish_command`,
whatever that call did. -/
def check_thresholds_and_control (optimization_enabled connected : Bool)
    (st : ListenerState) (d : SensorData) : ListenerState × List Command :=
  if ¬ optimization_enabled then (st, [])
  else
    let control := get_combined_control_recommendation d.temperature d.humidity
    let cf := current_fan_state st d
    let cl := current_lid_state st d
    let fanStep : ListenerState × List Command :=
      if control.fan_action = some "ON" then
        if cf ≠ "ON" then
          ({ st with last_fan_state := some "ON" },
           publish_command connected MQTT_CMD_FAN_TOPIC "ON")
        else (st, [])
      else if control.fan_action = some "OFF" then
        if cf = "ON" then
          ({ st with last_fan_state := some "OFF" },
           publish_command connected MQTT_CMD_FAN_TOPIC "OFF")
        else (st, [])
      else (st, [])
    let st1 := fanStep.1
    let lidStep : ListenerState × List Command :=
      if control.lid_action = some "OPEN" then
        if cl ≠ "OPEN" then
          ({ st1 with last_lid_state := some "OPEN" },
           publish_command connected MQTT_CMD_LID_TOPIC "OPEN")
        else (st1, [])
      else if control.lid_action = some "CLOSED" then
        if cl = "OPEN" then
          ({ st1 with last_lid_state := some "CLOSED" },
           publish_command connected MQTT_CMD_LID_TOPIC "CLOSE")
        else (st1, [])
      else (st1, [])
    (lidStep.1, fanStep.2 ++ lidStep.2)

/-- Tail of `topic.split("/")`: the characters seen since the last slash,
accumulated in reverse. -/
def lastSegAux : List Char → List Char → List Char
  | [], acc => acc.reverse
  | c :: rest, acc => if c = '/' then lastSegAux rest [] else lastSegAux rest (c :: acc)

/-- `topic.split("/")[-1]` (line 177): everything after the last slash. -/
def lastSegment (topic : String) : String := String.mk (lastSegAux topic.data [])

/-- The status synonym table of `handle_device_status` (lines 183-190). -/
def status_map (s : String) : String :=
  if s = "RUNNING" then "ON"
  else if s = "START" then "ON"
  else if s = "STOPPED" then "OFF"
  else if s = "STOP" then "OFF"
  else if s = "OPENED" then "OPEN"
  else if s = "CLOSED" then "CLOSE"
  else s

/-- Vocabulary normalization of `handle_device_status` (lines 178-195):
upper-case, apply the synonym table, then for the lid rewrite `CLOSE` to
`CLOSED`. -/
def normalize_status (device_type raw : String) : String :=
  let s := status_map (upper raw)
  if device_type = "lid" ∧ s = "CLOSE" then "CLOSED" else s

/-- `handle_device_status` (lines 171-221) restricted to its state effect:
the device type is the last `/`-separated segment of the topic and the
normalized status is written into the matching tracker slot.  (The timestamp
parsing only feeds a log line and is elided.) -/
def handle_device_status (st : ListenerState) (topic raw : String) : ListenerState :=
  let device_type := lastSegment topic
  let normalized := normalize_status device_type raw
  if device_type = "fan" then { st with last_fan_state := some normalized }
  else if device_type = "lid" then { st with last_lid_state := some normalized }
  else if device_type = "valve" then { st with last_valve_state := some normalized }
  else st

/-- A row of the `sensor_data` table. -/
structure SavedRow where
  timestamp : Int
  temperature : ℚ
  humidity : ℚ
deriving DecidableEq

def SECONDS_PER_DAY : Int := 86400

/-- `save_sensor_data` (lines 122-169) restricted to its validation logic,
with instants as `Int` seconds (the GMT+8 conversions are identity on
instants): a timestamp more than 1 day ahead of `now` aborts the insert;
one more than 365 days old is replaced by `now`; otherwise the row is
inserted as is. -/
def save_sensor_data (now : Int) (d : SensorData) : Option SavedRow :=
  if d.timestamp > now + SECONDS_PER_DAY then none
  else if d.timestamp < now - 365 * SECONDS_PER_DAY then
    some ⟨now, d.temperature, d.humidity⟩
  else
    some ⟨d.timestamp, d.temperature, d.humidity⟩

/-- What processing one sensor-topic message produces: the optional database
row, the new tracker state and the published commands. -/
structure IngestResult where
  saved : Option SavedRow
  state : ListenerState
  published : List Command
deriving DecidableEq

/-- The sensor-data branch of `on_message` (lines 360-371): a successfully
parsed reading is passed to `save_sensor_data` and then, unconditionally, to
`check_thresholds_and_control`. -/
def on_message_sensor (optimization_enabled connected : Bool) (now : Int)
    (st : ListenerState) (d : SensorData) : IngestResult :=
  let ctrl := check_thresholds_and_control optimization_enabled connected st d
  ⟨save_sensor_data now d, ctrl.1, ctrl.2⟩

/-- The commands of `cmds` published on `topic`. -/
def cmdsFor (topic : String) (cmds : List Command) : List Command :=
  cmds.filter (fun c => c.topic == topic)

lemma cmdsFor_nil (t : String) : cmdsFor t [] = [] := rfl

lemma cmdsFor_append (t : String) (xs ys : List Command) :
    cmdsFor t (xs ++ ys) = cmdsFor t xs ++ cmdsFor t ys := by
  simp [cmdsFor]

lemma cmdsFor_publish (conn : Bool) (t u a : String) :
    cmdsFor t (publish_command conn u a) =
      if u = t then publish_command conn u a else [] := by
  cases conn <;> by_cases h : u = t <;> simp [cmdsFor, publish_command, h]

/-- The command list produced by one control pass, written as the fan block
followed by the lid block, each mirroring the source's `if` ladder. -/
lemma published_characterization (conn : Bool) (st : ListenerState) (d : SensorData) :
    (check_thresholds_and_control true conn st d).2 =
      (if (get_combined_control_recommendation d.temperature d.humidity).fan_action = some "ON" then
        (if current_fan_state st d ≠ "ON" then publish_command conn MQTT_CMD_FAN_TOPIC "ON" else [])
       else if (get_combined_control_recommendation d.temperature d.humidity).fan_action = some "OFF" then
        (if current_fan_state st d = "ON" then publish_command conn MQTT_CMD_FAN_TOPIC "OFF" else [])
       else []) ++
      (if (get_combined_control_recommendation d.temperature d.humidity).lid_action = some "OPEN" then
        (if current_lid_state st d ≠ "OPEN" then publish_command conn MQTT_CMD_LID_TOPIC "OPEN" else [])
       else if (get_combined_control_recommendation d.temperature d.humidity).lid_action = some "CLOSED" then
        (if current_lid_state st d = "OPEN" then publish_command conn MQTT_CMD_LID_TOPIC "CLOSE" else [])
       else []) := by
  simp only [check_thresholds_and_control]
  split_ifs <;> simp_all

/-- Fan commands of one control pass. -/
lemma fan_cmds_characterization (conn : Bool) (st : ListenerState) (d : SensorData) :
    cmdsFor MQTT_CMD_FAN_TOPIC (check_thresholds_and_control true conn st d).2 =
      if (get_combined_control_recommendation d.temperature d.humidity).fan_action = some "ON" then
        (if current_fan_state st d ≠ "ON" then publish_command conn MQTT_CMD_FAN_TOPIC "ON" else [])
      else if (get_combined_control_recommendation d.temperature d.humidity).fan_action = some "OFF" then
        (if current_fan_state st d = "ON" then publish_command conn MQTT_CMD_FAN_TOPIC "OFF" else [])
      else [] := by
  rw [published_characterization, cmdsFor_append]
  split_ifs <;>
    simp [cmdsFor_publish, cmdsFor_nil, MQTT_CMD_FAN_TOPIC, MQTT_CMD_LID_TOPIC]

/-- Lid commands of one control pass. -/
lemma lid_cmds_characterization (conn : Bool) (st : ListenerState) (d : SensorData) :
    cmdsFor MQTT_CMD_LID_TOPIC (check_thresholds_and_control true conn st d).2 =
      if (get_combined_control_recommendation d.temperature d.humidity).lid_action = some "OPEN" then
        (if current_lid_state st d ≠ "OPEN" then publish_command conn MQTT_CMD_LID_TOPIC "OPEN" else [])
      else if (get_combined_control_recommendation d.temperature d.humidity).lid_action = some "CLOSED" then
        (if current_lid_state st d = "OPEN" then publish_command conn MQTT_CMD_LID_TOPIC "CLOSE" else [])
      else [] := by
  rw [published_characterization, cmdsFor_append]
  split_ifs <;>
    simp [cmdsFor_publish, cmdsFor_nil, MQTT_CMD_FAN_TOPIC, MQTT_CMD_LID_TOPIC]

/-- C1 counterexample: with the MQTT client disconnected, a control pass over a
35°C reading hands nothing to the transport, yet the tracker's fan state is
optimistically set to ON anyway (it was UNKNOWN before). -/
theorem publish_failure_still_updates_state_cex :
    (check_thresholds_and_control true false initState (mkReading 35 50 0)).2 = [] ∧
    (check_thresholds_and_control true false initState
        (mkReading 35 50 0)).1.last_fan_state = some "ON" ∧
    initState.last_fan_state = none := by decide

/-- C1 (amended): the tracker state produced by a control pass is the same
whether the publish can reach the transport or not — a failed publish updates
`last_fan_state`/`last_lid_state` exactly as a successful one would, and a
disconnected client publishes nothing. -/
theorem optimistic_update_independent_of_publish (optimization_enabled : Bool)
    (st : ListenerState) (d : SensorData) :
    (check_thresholds_and_control optimization_enabled true st d).1 =
      (check_thresholds_and_control optimization_enabled false st d).1 ∧
    (check_thresholds_and_control optimization_enabled false st d).2 = [] := by
  simp only [check_thresholds_and_control]
  constructor <;> split_ifs <;> simp [publish_command]

/-- C2 counterexample: at 15°C / 50% the engine asks fan OFF (a non-NONE
action) while the known fan state is UNKNOWN, yet reconciliation publishes no
command at all. -/
theorem unknown_state_off_action_not_emitted_cex :
    (get_combined_control_recommendation 15 50).fan_action = some "OFF" ∧
    current_fan_state initState (mkReading 15 50 0) = "UNKNOWN" ∧
    (check_thresholds_and_control true true initState (mkReading 15 50 0)).2 = [] := by
  decide

/-- C2 (amended): with the current state UNKNOWN, a desired fan ON or lid OPEN
is emitted exactly once, but a desired fan OFF or lid CLOSED is not emitted at
all (OFF is sent only from current ON, CLOSE only from current OPEN). -/
theorem unknown_state_emission (st : ListenerState) (d : SensorData) :
    (current_fan_state st d = "UNKNOWN" →
      ((get_combined_control_recommendation d.temperature d.humidity).fan_action = some "ON" →
        cmdsFor MQTT_CMD_FAN_TOPIC (check_thresholds_and_control true true st d).2 =
          [⟨MQTT_CMD_FAN_TOPIC, "ON"⟩]) ∧
      ((get_combined_control_recommendation d.temperature d.humidity).fan_action = some "OFF" →
        cmdsFor MQTT_CMD_FAN_TOPIC (check_thresholds_and_control true true st d).2 = [])) ∧
    (current_lid_state st d = "UNKNOWN" →
      ((get_combined_control_recommendation d.temperature d.humidity).lid_action = some "OPEN" →
        cmdsFor MQTT_CMD_LID_TOPIC (check_thresholds_and_control true true st d).2 =
          [⟨MQTT_CMD_LID_TOPIC, "OPEN"⟩]) ∧
      ((get_combined_control_recommendation d.temperature d.humidity).lid_action = some "CLOSED" →
        cmdsFor MQTT_CMD_LID_TOPIC (check_thresholds_and_control true true st d).2 = [])) := by
  constructor
  · intro hcf
    constructor
    · intro hfan
      rw [fan_cmds_characterization]
      simp [hfan, hcf, publish_command]
    · intro hfan
      rw [fan_cmds_characterization]
      simp [hfan, hcf]
  · intro hcl
    constructor
    · intro hlid
      rw [lid_cmds_characterization]
      simp [hlid, hcl, publish_command]
    · intro hlid
      rw [lid_cmds_characterization]
      simp [hlid, hcl]

/-- Witness for C2 (amended) at readings 35°C/50% (fan ON, lid OPEN emitted
once) and 15°C/50% (fan OFF, lid CLOSED not emitted), from the fresh state. -/
theorem unknown_state_emission_witness :
    cmdsFor MQTT_CMD_FAN_TOPIC
        (check_thresholds_and_control true true initState (mkReading 35 50 0)).2 =
      [⟨MQTT_CMD_FAN_TOPIC, "ON"⟩] ∧
    cmdsFor MQTT_CMD_FAN_TOPIC
        (check_thresholds_and_control true true initState (mkReading 15 50 0)).2 = [] ∧
    cmdsFor MQTT_CMD_LID_TOPIC
        (check_thresholds_and_control true true initState (mkReading 35 50 0)).2 =
      [⟨MQTT_CMD_LID_TOPIC, "OPEN"⟩] ∧
    cmdsFor MQTT_CMD_LID_TOPIC
        (check_thresholds_and_control true true initState (mkReading 15 50 0)).2 = [] :=
  ⟨((unknown_state_emission initState (mkReading 35 50 0)).1 (by decide)).1 (by decide),
   ((unknown_state_emission initState (mkReading 15 50 0)).1 (by decide)).2 (by decide),
   ((unknown_state_emission initState (mkReading 35 50 0)).2 (by decide)).1 (by decide),
   ((unknown_state_emission initState (mkReading 15 50 0)).2 (by decide)).2 (by decide)⟩

/-- C3 counterexample: a reading timestamped two days ahead of `now = 0` is not
persisted, yet the control path still evaluates it and even publishes both a
fan and a lid command for it. -/
theorem future_reading_still_control_evaluated_cex :
    (mkReading 35 50 172800).timestamp > 0 + SECONDS_PER_DAY ∧
    (on_message_sensor true true 0 initState (mkReading 35 50 172800)).saved = none ∧
    (on_message_sensor true true 0 initState (mkReading 35 50 172800)).published =
      [⟨MQTT_CMD_FAN_TOPIC, "ON"⟩, ⟨MQTT_CMD_LID_TOPIC, "OPEN"⟩] := by
  decide

/-- C3 (amended): a reading more than one day in the future is not persisted
but is still control-evaluated (its commands are exactly those of the control
pass); a reading more than 365 days old is persisted with its timestamp
replaced by `now`. -/
theorem timestamp_validation (optimization_enabled connected : Bool) (now : Int)
    (st : ListenerState) (d : SensorData) :
    (d.timestamp > now + SECONDS_PER_DAY →
      (on_message_sensor optimization_enabled connected now st d).saved = none) ∧
    (d.timestamp < now - 365 * SECONDS_PER_DAY →
      (on_message_sensor optimization_enabled connected now st d).saved =
        some ⟨now, d.temperature, d.humidity⟩) ∧
    (on_message_sensor optimization_enabled connected now st d).published =
      (check_thresholds_and_control optimization_enabled connected st d).2 := by
  refine ⟨?_, ?_, rfl⟩
  · intro h
    simp [on_message_sensor, save_sensor_data, h]
  · intro h
    have h1 : ¬ d.timestamp > now + SECONDS_PER_DAY := by
      simp only [SECONDS_PER_DAY] at h ⊢
      omega
    simp [on_message_sensor, save_sensor_data, h, h1]

/-- Witness for C3 (amended): a reading two days ahead is dropped from the
store; a reading just over a year old is stored re-timestamped to `now = 0`. -/
theorem timestamp_validation_witness :
    (on_message_sensor true true 0 initState (mkReading 20 50 172800)).saved = none ∧
    (on_message_sensor true true 0 initState (mkReading 20 50 (-31536001))).saved =
      some ⟨0, 20, 50⟩ :=
  ⟨(timestamp_validation true true 0 initState (mkReading 20 50 172800)).1 (by decide),
   (timestamp_validation true true 0 initState (mkReading 20 50 (-31536001))).2.1 (by decide)⟩

/-- C6: reconciliation publishes nothing for an actuator whose desired action
already equals its current known state, with the hardware spelling CLOSE
treated like the tracker's CLOSED for the lid. -/
theorem reconcile_skips_matching_state (conn : Bool) (st : ListenerState) (d : SensorData) :
    ((get_combined_control_recommendation d.temperature d.humidity).fan_action = some "ON" →
      current_fan_state st d = "ON" →
      cmdsFor MQTT_CMD_FAN_TOPIC (check_thresholds_and_control true conn st d).2 = []) ∧
    ((get_combined_control_recommendation d.temperature d.humidity).fan_action = some "OFF" →
      current_fan_state st d = "OFF" →
      cmdsFor MQTT_CMD_FAN_TOPIC (check_thresholds_and_control true conn st d).2 = []) ∧
    ((get_combined_control_recommendation d.temperature d.humidity).lid_action = some "OPEN" →
      current_lid_state st d = "OPEN" →
      cmdsFor MQTT_CMD_LID_TOPIC (check_thresholds_and_control true conn st d).2 = []) ∧
    ((get_combined_control_recommendation d.temperature d.humidity).lid_action = some "CLOSED" →
      (current_lid_state st d = "CLOSED" ∨ current_lid_state st d = "CLOSE") →
      cmdsFor MQTT_CMD_LID_TOPIC (check_thresholds_and_control true conn st d).2 = []) := by
  refine ⟨?_, ?_, ?_, ?_⟩
  · intro h1 h2
    rw [fan_cmds_characterization]
    simp [h1, h2]
  · intro h1 h2
    rw [fan_cmds_characterization]
    simp [h1, h2]
  · intro h1 h2
    rw [lid_cmds_characterization]
    simp [h1, h2]
  · intro h1 h2
    rw [lid_cmds_characterization]
    rcases h2 with h2 | h2 <;> simp [h1, h2]

/-- Witness for C6: no fan command at 35°C with fan already ON, none at 15°C
with fan already OFF; no lid command at 35°C with lid already OPEN, none at
15°C with lid already CLOSED, nor with the hardware spelling CLOSE. -/
theorem reconcile_skips_matching_state_witness :
    cmdsFor MQTT_CMD_FAN_TOPIC (check_thresholds_and_control true true
      ⟨some "ON", none, none⟩ (mkReading 35 50 0)).2 = [] ∧
    cmdsFor MQTT_CMD_FAN_TOPIC (check_thresholds_and_control true true
      ⟨some "OFF", none, none⟩ (mkReading 15 50 0)).2 = [] ∧
    cmdsFor MQTT_CMD_LID_TOPIC (check_thresholds_and_control true true
      ⟨none, some "OPEN", none⟩ (mkReading 35 50 0)).2 = [] ∧
    cmdsFor MQTT_CMD_LID_TOPIC (check_thresholds_and_control true true
      ⟨none, some "CLOSED", none⟩ (mkReading 15 50 0)).2 = [] ∧
    cmdsFor MQTT_CMD_LID_TOPIC (check_thresholds_and_control true true
      ⟨none, some "CLOSE", none⟩ (mkReading 15 50 0)).2 = [] :=
  ⟨(reconcile_skips_matching_state true ⟨some "ON", none, none⟩
      (mkReading 35 50 0)).1 (by decide) (by decide),
   (reconcile_skips_matching_state true ⟨some "OFF", none, none⟩
      (mkReading 15 50 0)).2.1 (by decide) (by decide),
   (reconcile_skips_matching_state true ⟨none, some "OPEN", none⟩
      (mkReading 35 50 0)).2.2.1 (by decide) (by decide),
   (reconcile_skips_matching_state true ⟨none, some "CLOSED", none⟩
      (mkReading 15 50 0)).2.2.2 (by decide) (Or.inl (by decide)),
   (reconcile_skips_matching_state true ⟨none, some "CLOSE", none⟩
      (mkReading 15 50 0)).2.2.2 (by decide) (Or.inr (by decide))⟩

lemma upper_lit_ON : upper "ON" = "ON" := by decide

lemma upper_lit_OFF : upper "OFF" = "OFF" := by decide

lemma upper_lit_OPEN : upper "OPEN" = "OPEN" := by decide

lemma upper_lit_CLOSE : upper "CLOSE" = "CLOSE" := by decide

lemma upper_lit_CLOSED : upper "CLOSED" = "CLOSED" := by decide

/-- C8: device-status vocabulary normalization (upper-casing, then the synonym
table, then the lid's CLOSE→CLOSED rewrite) is idempotent for every device
type and every status string. -/
theorem normalize_status_idempotent (device_type raw : String) :
    normalize_status device_type (normalize_status device_type raw) =
      normalize_status device_type raw := by
  by_cases h1 : upper raw = "RUNNING"
  · simp [normalize_status, status_map, h1, upper_lit_ON]
  by_cases h2 : upper raw = "START"
  · simp [normalize_status, status_map, h1, h2, upper_lit_ON]
  by_cases h3 : upper raw = "STOPPED"
  · simp [normalize_status, status_map, h1, h2, h3, upper_lit_OFF]
  by_cases h4 : upper raw = "STOP"
  · simp [normalize_status, status_map, h1, h2, h3, h4, upper_lit_OFF]
  by_cases h5 : upper raw = "OPENED"
  · simp [normalize_status, status_map, h1, h2, h3, h4, h5, upper_lit_OPEN]
  by_cases h6 : upper raw = "CLOSED"
  · by_cases hdev : device_type = "lid"
    · simp [normalize_status, status_map, h1, h2, h3, h4, h5, h6, hdev, upper_lit_CLOSED]
    · simp [normalize_status, status_map, h1, h2, h3, h4, h5, h6, hdev, upper_lit_CLOSE]
  by_cases h7 : upper raw = "CLOSE"
  · by_cases hdev : device_type = "lid"
    · simp [normalize_status, status_map, h1, h2, h3, h4, h5, h6, h7, hdev, upper_lit_CLOSED]
    · simp [normalize_status, status_map, h1, h2, h3, h4, h5, h6, h7, hdev, upper_lit_CLOSE]
  · simp [normalize_status, status_map, h1, h2, h3, h4, h5, h6, h7, upper_idem]

lemma control_preserves_valve_state (optimization_enabled connected : Bool)
    (st : ListenerState) (d : SensorData) :
    (check_thresholds_and_control optimization_enabled connected st d).1.last_valve_state =
      st.last_valve_state := by
  simp only [check_thresholds_and_control]
  generalize get_combined_control_recommendation d.temperature d.humidity = ctl
  generalize current_fan_state st d = cf
  generalize current_lid_state st d = cl
  split_ifs <;> rfl

lemma control_never_publishes_valve (optimization_enabled connected : Bool)
    (st : ListenerState) (d : SensorData) :
    ∀ c ∈ (check_thresholds_and_control optimization_enabled connected st d).2,
      c.topic ≠ MQTT_CMD_VALVE_TOPIC := by
  simp only [check_thresholds_and_control]
  generalize get_combined_control_recommendation d.temperature d.humidity = ctl
  generalize current_fan_state st d = cf
  generalize current_lid_state st d = cl
  intro c hc
  cases connected <;> split_ifs at hc <;>
    simp [publish_command] at hc <;>
    first
      | (rcases hc with hc | hc <;> subst hc <;> decide)
      | (subst hc; decide)

lemma device_status_writes_valve_only_from_valve_topic
    (st : ListenerState) (topic raw : String) (h : lastSegment topic ≠ "valve") :
    (handle_device_status st topic raw).last_valve_state = st.last_valve_state := by
  simp only [handle_device_status]
  generalize lastSegment topic = dev at h ⊢
  by_cases hf : dev = "fan"
  · simp [hf]
  · by_cases hl : dev = "lid"
    · simp [hf, hl]
    · simp [hf, hl, h]

/-- C10: a telemetry control pass never publishes on the valve command topic
and never changes `last_valve_state`; a device-status message changes
`last_valve_state` only when its topic's last segment is `valve`. -/
theorem valve_untouched_by_control (optimization_enabled connected : Bool)
    (st : ListenerState) (d : SensorData) (topic raw : String) :
    (check_thresholds_and_control optimization_enabled connected st d).1.last_valve_state =
      st.last_valve_state ∧
    (∀ c ∈ (check_thresholds_and_control optimization_enabled connected st d).2,
      c.topic ≠ MQTT_CMD_VALVE_TOPIC) ∧
    (lastSegment topic ≠ "valve" →
      (handle_device_status st topic raw).last_valve_state = st.last_valve_state) :=
  ⟨control_preserves_valve_state optimization_enabled connected st d,
   control_never_publishes_valve optimization_enabled connected st d,
   device_status_writes_valve_only_from_valve_topic st topic raw⟩

/-- Witness for C10: at 35°C from the fresh state the valve state stays `none`
through the control pass, the published fan command is not on the valve topic,
and a fan status message leaves the valve state alone. -/
theorem valve_untouched_by_control_witness :
    (check_thresholds_and_control true true initState
        (mkReading 35 50 0)).1.last_valve_state = none ∧
    (⟨MQTT_CMD_FAN_TOPIC, "ON"⟩ : Command).topic ≠ MQTT_CMD_VALVE_TOPIC ∧
    (handle_device_status initState "sprop/status/fan" "RUNNING").last_valve_state = none :=
  ⟨(valve_untouched_by_control true true initState (mkReading 35 50 0)
      "sprop/status/fan" "RUNNING").1,
   (valve_untouched_by_control true true initState (mkReading 35 50 0)
      "sprop/status/fan" "RUNNING").2.1 ⟨MQTT_CMD_FAN_TOPIC, "ON"⟩ (by decide),
   (valve_untouched_by_control true true initState (mkReading 35 50 0)
      "sprop/status/fan" "RUNNING").2.2 (by decide)⟩

end SProp
